import Mathlib

/-!
Verification of the response/error contract layer of the juno backend:
the `ApiError` error-envelope class (`src/utils/api-error.ts`), the
`ApiResponse` success-envelope class (`src/utils/api-response.ts`,
bundled in `app.ts`), and the `asyncHandler` suspension-safety wrapper
(`src/utils/async-handler.ts`).

Modelling conventions:
* JavaScript numbers holding HTTP status codes are modelled as `Int`.
* `new Date().toISOString()` is nondeterministic clock capture; every
  constructor takes the captured instant as an explicit `timestamp`
  argument.
* A constructor that can `throw` is modelled as `Except String _`,
  carrying the thrown `Error`'s message.
* TypeScript optional fields (`string | undefined`) are `Option String`.
* Default parameter values of the source are noted in doc comments;
  callers of the model pass every argument explicitly.
-/

set_option autoImplicit false

/-- Wire-level JSON values, used to state what `toJSON` emits.  A JSON
object is an ordered association list of key/value pairs; a key that is
absent from the list is absent from the serialized output. -/
inductive Json where
  | null : Json
  | bool : Bool → Json
  | num : Int → Json
  | str : String → Json
  | arr : List Json → Json
  | obj : List (String × Json) → Json

/-- Keys of a JSON object (empty for non-objects). -/
def Json.objKeys : Json → List String
  | Json.obj fields => fields.map Prod.fst
  | _ => []

/-- First value bound to key `k` in an association list, if any. -/
def findKey (k : String) : List (String × Json) → Option Json
  | [] => none
  | (k', v) :: rest => if k' = k then some v else findKey k rest

/-- Value bound to key `k` in a JSON object (none for non-objects). -/
def Json.lookupKey (j : Json) (k : String) : Option Json :=
  match j with
  | Json.obj fields => findKey k fields
  | _ => none

/-- `interface ErrorDetail` of `api-error.ts`: one detailed error entry
with optional `field` and `code` and a required `message`. -/
structure ErrorDetail where
  field : Option String
  message : String
  code : Option String
deriving DecidableEq

/-- JSON.stringify on a plain object omits `undefined`-valued keys but
keeps empty strings; this helper models that for an optional field. -/
def undefOmitted (k : String) (v : Option String) : List (String × Json) :=
  match v with
  | none => []
  | some s => [(k, Json.str s)]

/-- Serialization of an `ErrorDetail` (plain object, `undefined` keys
omitted by JSON.stringify). -/
def ErrorDetail.toJson (d : ErrorDetail) : Json :=
  Json.obj (undefOmitted "field" d.field ++
    [("message", Json.str d.message)] ++ undefOmitted "code" d.code)

/-- The spread `...(x && \x7b key: x \x7d)` of `ApiError.toJSON`: the key is
emitted iff the optional string is present and truthy, i.e. non-empty.
An empty string is falsy in JavaScript, so `some ""` emits nothing. -/
def truthySpread (k : String) (v : Option String) : List (String × Json) :=
  match v with
  | none => []
  | some s => if s = "" then [] else [(k, Json.str s)]

/-- `class ApiError extends Error` of `api-error.ts`.  Fields in source
declaration order.  `success` and `data` are instance fields fixed by
the class to the literals `false` and `null`; `correlationId` is the
only field not marked `readonly`.  `stack` is `none` when the source
would capture a fresh trace via `Error.captureStackTrace`. -/
structure ApiError where
  statusCode : Int
  data : Json
  message : String
  success : Bool
  errors : List ErrorDetail
  code : Option String
  timestamp : String
  correlationId : Option String
  stack : Option String

/-- The `ApiError` constructor.  Source defaults: `message =
"Something went wrong"`, `errors = []`, `stack` and `code` absent.
Throws (returns `Except.error`) when `statusCode` is outside 400-599;
otherwise sets the fields, with `timestamp = new Date().toISOString()`
passed here as the captured instant, and `correlationId` unset. -/
def ApiError.make (statusCode : Int) (message : String)
    (errors : List ErrorDetail) (stack : Option String)
    (code : Option String) (timestamp : String) : Except String ApiError :=
  if statusCode < 400 ∨ statusCode > 599 then
    Except.error ("Invalid status code: " ++ toString statusCode ++
      ". Must be between 400-599")
  else
    Except.ok
      { statusCode := statusCode
        data := Json.null
        message := message
        success := false
        errors := errors
        code := code
        timestamp := timestamp
        correlationId := none
        stack := stack }

/-- `toJSON()` of `ApiError`: fixed keys in source order, with `code`
and `correlationId` emitted through the truthy spread pattern. -/
def ApiError.toJSON (e : ApiError) : Json :=
  Json.obj
    ([("success", Json.bool e.success),
      ("statusCode", Json.num e.statusCode),
      ("message", Json.str e.message),
      ("data", e.data),
      ("errors", Json.arr (e.errors.map ErrorDetail.toJson))] ++
     truthySpread "code" e.code ++
     [("timestamp", Json.str e.timestamp)] ++
     truthySpread "correlationId" e.correlationId)

/-- Assignment `err.correlationId = c`.  The field is declared without
`readonly`, so the type system permits this assignment at any time,
including after a previous assignment. -/
def ApiError.setCorrelationId (e : ApiError) (c : String) : ApiError :=
  { e with correlationId := some c }

/-- `ApiError.badRequest`: 400 with code `BAD_REQUEST`.  Source
defaults: `message = "Bad Request"`, `errors = []`. -/
def ApiError.badRequest (message : String) (errors : List ErrorDetail)
    (timestamp : String) : Except String ApiError :=
  ApiError.make 400 message errors none (some "BAD_REQUEST") timestamp

/-- `ApiError.unauthorized`: 401 with code `UNAUTHORIZED`.  Source
default: `message = "Unauthorized access"`. -/
def ApiError.unauthorized (message : String) (timestamp : String) :
    Except String ApiError :=
  ApiError.make 401 message [] none (some "UNAUTHORIZED") timestamp

/-- `ApiError.forbidden`: 403 with code `FORBIDDEN`.  Source default:
`message = "Access forbidden"`. -/
def ApiError.forbidden (message : String) (timestamp : String) :
    Except String ApiError :=
  ApiError.make 403 message [] none (some "FORBIDDEN") timestamp

/-- `ApiError.notFound`: 404 with code `NOT_FOUND` and message
`resource ++ " not found"`.  Source default: `resource = "Resource"`. -/
def ApiError.notFound (resource : String) (timestamp : String) :
    Except String ApiError :=
  ApiError.make 404 (resource ++ " not found") [] none (some "NOT_FOUND")
    timestamp

/-- `ApiError.conflict`: 409 with code `CONFLICT`.  Source default:
`message = "Resource conflict"`. -/
def ApiError.conflict (message : String) (timestamp : String) :
    Except String ApiError :=
  ApiError.make 409 message [] none (some "CONFLICT") timestamp

/-- `ApiError.validation`: 422 with code `VALIDATION_ERROR`.  Source
defaults: `message = "Validation failed"`, `errors = []`. -/
def ApiError.validation (message : String) (errors : List ErrorDetail)
    (timestamp : String) : Except String ApiError :=
  ApiError.make 422 message errors none (some "VALIDATION_ERROR") timestamp

/-- `ApiError.internal`: 500 with code `INTERNAL_ERROR`.  Source
default: `message = "Internal server error"`. -/
def ApiError.internal (message : String) (timestamp : String) :
    Except String ApiError :=
  ApiError.make 500 message [] none (some "INTERNAL_ERROR") timestamp

/-- `interface ResponseMetadata` of `api-response.ts`: all fields
optional. -/
structure ResponseMetadata where
  total : Option Int
  page : Option Int
  limit : Option Int
  totalPages : Option Int
  hasNext : Option Bool
  hasPrevious : Option Bool

/-- JSON.stringify of an optional numeric field: omitted when
`undefined`. -/
def undefOmittedNum (k : String) (v : Option Int) : List (String × Json) :=
  match v with
  | none => []
  | some n => [(k, Json.num n)]

/-- JSON.stringify of an optional boolean field: omitted when
`undefined`. -/
def undefOmittedBool (k : String) (v : Option Bool) : List (String × Json) :=
  match v with
  | none => []
  | some b => [(k, Json.bool b)]

/-- Serialization of a `ResponseMetadata` object: plain object, keys in
declaration order, `undefined` keys omitted by JSON.stringify. -/
def ResponseMetadata.toJson (m : ResponseMetadata) : Json :=
  Json.obj (undefOmittedNum "total" m.total ++
    undefOmittedNum "page" m.page ++
    undefOmittedNum "limit" m.limit ++
    undefOmittedNum "totalPages" m.totalPages ++
    undefOmittedBool "hasNext" m.hasNext ++
    undefOmittedBool "hasPrevious" m.hasPrevious)

/-- `class ApiResponse<T>` of `api-response.ts`.  `success` is an
instance field fixed by the class to the literal `true`; every field is
`readonly`.  The payload `data` is modelled at wire level as `Json`. -/
structure ApiResponse where
  success : Bool
  statusCode : Int
  data : Json
  message : String
  metadata : Option ResponseMetadata
  timestamp : String

/-- The `ApiResponse` constructor.  Source defaults: `message =
"Success"`, `metadata` absent.  Throws when `statusCode < 200` or
`statusCode >= 400`; otherwise sets the fields with the captured
instant `timestamp`. -/
def ApiResponse.make (statusCode : Int) (data : Json) (message : String)
    (metadata : Option ResponseMetadata) (timestamp : String) :
    Except String ApiResponse :=
  if statusCode < 200 ∨ statusCode ≥ 400 then
    Except.error ("Invalid success status code: " ++ toString statusCode ++
      ". Must be between 200-399")
  else
    Except.ok
      { success := true
        statusCode := statusCode
        data := data
        message := message
        metadata := metadata
        timestamp := timestamp }

/-- `toJSON()` of `ApiResponse`: fixed keys in source order; the spread
`...(this.metadata && \x7b metadata: this.metadata \x7d)` emits `metadata`
iff present (an object reference is always truthy). -/
def ApiResponse.toJSON (r : ApiResponse) : Json :=
  Json.obj
    ([("success", Json.bool r.success),
      ("statusCode", Json.num r.statusCode),
      ("message", Json.str r.message),
      ("data", r.data)] ++
     (match r.metadata with
      | some m => [("metadata", m.toJson)]
      | none => []) ++
     [("timestamp", Json.str r.timestamp)])

/-- `ApiResponse.paginated`: 200 with the given list payload and
metadata.  Source default: `message = "Data retrieved successfully"`. -/
def ApiResponse.paginated (data : List Json) (metadata : ResponseMetadata)
    (message : String) (timestamp : String) : Except String ApiResponse :=
  ApiResponse.make 200 (Json.arr data) message (some metadata) timestamp

/-- One write to the response channel (`res.status(s).json(b)`). -/
structure ResponseWrite where
  status : Int
  body : Json

/-- Observable behaviour of one invocation of an `AsyncController`
`(req, res, next) => Promise of void`: the response writes it performs,
the number of suspension points before its promise settles (`0` means
it settles before any suspension, i.e. a synchronous throw inside an
async function), and the settled outcome — fulfilled (`Except.ok ()`)
or rejected with a failure value of type `ε`. -/
structure HandlerBehavior (ε : Type) where
  writes : List ResponseWrite
  delay : Nat
  result : Except ε Unit

/-- Observable behaviour of one invocation of the wrapped middleware:
the response writes performed and the failures forwarded to `next`. -/
structure WrappedOutcome (ε : Type) where
  writes : List ResponseWrite
  forwarded : List ε

/-- `asyncHandler` of `async-handler.ts`: the returned middleware runs
the handler and attaches `.catch((err) => next(err))` to
`Promise.resolve` of its result.  A promise settles exactly once, so
`next` is invoked once on rejection (whatever the delay) and never on
fulfilment; the wrapper itself writes nothing to the response. -/
def asyncHandler {ρ ε : Type} (requestHandler : ρ → HandlerBehavior ε)
    (req : ρ) : WrappedOutcome ε :=
  let b := requestHandler req
  { writes := b.writes
    forwarded :=
      match b.result with
      | Except.ok _ => []
      | Except.error err => [err] }

/-- Claim C1: for every handler that throws synchronously — its promise
settles rejected before any suspension (`delay = 0`) and it has written
nothing — invoking the wrapped handler forwards exactly that one
failure to the `next` continuation and performs no response write. -/
theorem asyncHandler_syncThrow_forwards_once {ρ ε : Type}
    (h : ρ → HandlerBehavior ε) (req : ρ) (e : ε)
    (hw : (h req).writes = []) (_hd : (h req).delay = 0)
    (hr : (h req).result = Except.error e) :
    (asyncHandler h req).forwarded = [e] ∧
    (asyncHandler h req).writes = [] := by
  refine ⟨?_, ?_⟩
  · simp [asyncHandler, hr]
  · simp [asyncHandler, hw]

/-- Witness for C1 at a concrete synchronously-throwing handler. -/
theorem asyncHandler_syncThrow_forwards_once_witness :
    (asyncHandler (fun _ : Unit =>
      HandlerBehavior.mk [] 0 (Except.error "boom")) ()).forwarded = ["boom"] ∧
    (asyncHandler (fun _ : Unit =>
      HandlerBehavior.mk [] 0 (Except.error "boom")) ()).writes = [] :=
  asyncHandler_syncThrow_forwards_once
    (fun _ : Unit => HandlerBehavior.mk [] 0 (Except.error "boom"))
    () "boom" rfl rfl rfl

/-- Claim C4: each invocation of the wrapped handler forwards a failure
iff the handler's promise rejects, forwards nothing when it fulfils,
never forwards more than one failure, and the wrapper adds no response
writes of its own. -/
theorem asyncHandler_forwards_iff_rejects {ρ ε : Type}
    (h : ρ → HandlerBehavior ε) (req : ρ) :
    (asyncHandler h req).forwarded.length ≤ 1 ∧
    ((asyncHandler h req).forwarded = [] ↔ (h req).result = Except.ok ()) ∧
    (∀ e : ε, (asyncHandler h req).forwarded = [e] ↔
      (h req).result = Except.error e) ∧
    (asyncHandler h req).writes = (h req).writes := by
  rcases hres : (h req).result with err | u
  · refine ⟨?_, ?_, ?_, rfl⟩ <;> simp [asyncHandler, hres]
  · cases u
    refine ⟨?_, ?_, ?_, rfl⟩ <;> simp [asyncHandler, hres]

/-- Claim C2: the `ApiError` constructor succeeds exactly on status
codes in [400, 599], the produced envelope has `success = false` and
`data = null`, and outside the range it fails with a construction
error (so no envelope is ever produced there). -/
theorem ApiError.makeError_range (sc : Int) (msg : String)
    (errs : List ErrorDetail) (stk code : Option String) (t : String) :
    ((∃ e, ApiError.make sc msg errs stk code t = Except.ok e ∧
        e.success = false ∧ e.data = Json.null) ↔ (400 ≤ sc ∧ sc ≤ 599)) ∧
    ((∃ m, ApiError.make sc msg errs stk code t = Except.error m) ↔
      (sc < 400 ∨ 599 < sc)) := by
  unfold ApiError.make
  by_cases hc : sc < 400 ∨ sc > 599
  · rw [if_pos hc]
    refine ⟨⟨?_, ?_⟩, ⟨?_, ?_⟩⟩
    · rintro ⟨e, he, -⟩; simp at he
    · intro hr; omega
    · intro _; exact hc
    · intro _; exact ⟨_, rfl⟩
  · rw [if_neg hc]
    push_neg at hc
    refine ⟨⟨?_, ?_⟩, ⟨?_, ?_⟩⟩
    · intro _; omega
    · intro _; exact ⟨_, rfl, rfl, rfl⟩
    · rintro ⟨m, hm⟩; simp at hm
    · intro h2; omega

/-- Claim C3: the `ApiResponse` constructor succeeds exactly on status
codes in [200, 399], the produced envelope has `success = true`, and
outside the range it fails with a construction error. -/
theorem ApiResponse.makeSuccess_range (sc : Int) (d : Json) (msg : String)
    (md : Option ResponseMetadata) (t : String) :
    ((∃ r, ApiResponse.make sc d msg md t = Except.ok r ∧
        r.success = true) ↔ (200 ≤ sc ∧ sc ≤ 399)) ∧
    ((∃ m, ApiResponse.make sc d msg md t = Except.error m) ↔
      (sc < 200 ∨ 399 < sc)) := by
  unfold ApiResponse.make
  by_cases hc : sc < 200 ∨ sc ≥ 400
  · rw [if_pos hc]
    refine ⟨⟨?_, ?_⟩, ⟨?_, ?_⟩⟩
    · rintro ⟨r, hr, -⟩; simp at hr
    · intro hr; omega
    · intro _; omega
    · intro _; exact ⟨_, rfl⟩
  · rw [if_neg hc]
    push_neg at hc
    refine ⟨⟨?_, ?_⟩, ⟨?_, ?_⟩⟩
    · intro _; omega
    · intro _; exact ⟨_, rfl, rfl⟩
    · rintro ⟨m, hm⟩; simp at hm
    · intro h2; omega

/-- Characterization of the keys emitted by the truthy spread: the key
appears iff the optional string is present and non-empty. -/
theorem truthySpread_keys_mem (k k' : String) (v : Option String) :
    k' ∈ (truthySpread k v).map Prod.fst ↔
      (k' = k ∧ ∃ s, v = some s ∧ s ≠ "") := by
  rcases v with _ | s
  · simp [truthySpread]
  · by_cases hs : s = "" <;> simp [truthySpread, hs, And.comm]

/-- The error-envelope wire output has a `code` key iff `code` is a
present non-empty string. -/
theorem mem_objKeys_ApiError_code (e : ApiError) :
    "code" ∈ (ApiError.toJSON e).objKeys ↔
      ∃ s, e.code = some s ∧ s ≠ "" := by
  rcases hc : e.code with _ | s <;> rcases hk : e.correlationId with _ | u
  · simp [ApiError.toJSON, Json.objKeys, truthySpread, hc, hk]
  · by_cases hu : u = "" <;>
      simp [ApiError.toJSON, Json.objKeys, truthySpread, hc, hk, hu]
  · by_cases hs : s = "" <;>
      simp [ApiError.toJSON, Json.objKeys, truthySpread, hc, hk, hs]
  · by_cases hs : s = "" <;> by_cases hu : u = "" <;>
      simp [ApiError.toJSON, Json.objKeys, truthySpread, hc, hk, hs, hu]

/-- The error-envelope wire output has a `correlationId` key iff
`correlationId` is a present non-empty string. -/
theorem mem_objKeys_ApiError_correlationId (e : ApiError) :
    "correlationId" ∈ (ApiError.toJSON e).objKeys ↔
      ∃ s, e.correlationId = some s ∧ s ≠ "" := by
  rcases hc : e.code with _ | s <;> rcases hk : e.correlationId with _ | u
  · simp [ApiError.toJSON, Json.objKeys, truthySpread, hc, hk]
  · by_cases hu : u = "" <;>
      simp [ApiError.toJSON, Json.objKeys, truthySpread, hc, hk, hu]
  · by_cases hs : s = "" <;>
      simp [ApiError.toJSON, Json.objKeys, truthySpread, hc, hk, hs]
  · by_cases hs : s = "" <;> by_cases hu : u = "" <;>
      simp [ApiError.toJSON, Json.objKeys, truthySpread, hc, hk, hs, hu]

/-- The success-envelope wire output has a `metadata` key iff the
envelope carries metadata. -/
theorem mem_objKeys_ApiResponse_metadata (r : ApiResponse) :
    "metadata" ∈ (ApiResponse.toJSON r).objKeys ↔
      ∃ m, r.metadata = some m := by
  rcases hm : r.metadata with _ | m <;>
    simp [ApiResponse.toJSON, Json.objKeys, hm]

/-- Counterexample to claim C5: `badRequest` accepts a caller-supplied
errors array and passes it through unchanged, so a constructor other
than `validation` can carry two `ErrorDetail`s. -/
theorem badRequest_carries_two_details :
    ¬ (∀ (msg t : String) (errs : List ErrorDetail) (e : ApiError),
        ApiError.badRequest msg errs t = Except.ok e →
        e.errors.length ≤ 1) := by
  intro hall
  have h := hall "Validation failed" "2025-01-01T00:00:00.000Z"
    [ErrorDetail.mk (some "email") "Valid email is required" none,
     ErrorDetail.mk (some "password") "Too short" none] _ rfl
  exact absurd h (by decide)

/-- Claim C5 (amended): `unauthorized`, `forbidden`, `notFound`,
`conflict` and `internal` always carry exactly zero `ErrorDetail`s
(hence zero or one); `validation` and `badRequest` both pass the
caller-supplied errors sequence through unchanged, so `badRequest`,
like `validation`, may carry more than one. -/
theorem fixedKind_constructors_carry_no_details (msg resource t : String)
    (errs : List ErrorDetail) :
    (ApiError.unauthorized msg t).map ApiError.errors = Except.ok [] ∧
    (ApiError.forbidden msg t).map ApiError.errors = Except.ok [] ∧
    (ApiError.notFound resource t).map ApiError.errors = Except.ok [] ∧
    (ApiError.conflict msg t).map ApiError.errors = Except.ok [] ∧
    (ApiError.internal msg t).map ApiError.errors = Except.ok [] ∧
    (ApiError.validation msg errs t).map ApiError.errors = Except.ok errs ∧
    (ApiError.badRequest msg errs t).map ApiError.errors = Except.ok errs :=
  ⟨rfl, rfl, rfl, rfl, rfl, rfl, rfl⟩

/-- Claim C6: serialization omits the `metadata`, `code` and
`correlationId` keys entirely when the corresponding field is absent
(no null placeholder), and `makeError(404, "Project not found")`
serializes to exactly the six-key object of the claim, with no `code`
or `correlationId` key. -/
theorem toJSON_omits_absent_keys (e : ApiError) (r : ApiResponse)
    (t : String) :
    ("code" ∈ (ApiError.toJSON e).objKeys ↔
      ∃ s, e.code = some s ∧ s ≠ "") ∧
    ("correlationId" ∈ (ApiError.toJSON e).objKeys ↔
      ∃ s, e.correlationId = some s ∧ s ≠ "") ∧
    ("metadata" ∈ (ApiResponse.toJSON r).objKeys ↔
      ∃ m, r.metadata = some m) ∧
    (ApiError.make 404 "Project not found" [] none none t).map
        ApiError.toJSON =
      Except.ok (Json.obj
        [("success", Json.bool false),
         ("statusCode", Json.num 404),
         ("message", Json.str "Project not found"),
         ("data", Json.null),
         ("errors", Json.arr []),
         ("timestamp", Json.str t)]) :=
  ⟨mem_objKeys_ApiError_code e, mem_objKeys_ApiError_correlationId e,
   mem_objKeys_ApiResponse_metadata r, rfl⟩

/-- Counterexample to claim C7: the `correlationId` field is declared
without `readonly`, so nothing prevents a second assignment, and the
second assignment overwrites the first — "once set it never changes"
fails. -/
theorem correlationId_second_set_overwrites :
    ¬ (∀ (e : ApiError) (c d : String),
        ((e.setCorrelationId c).setCorrelationId d).correlationId =
          (e.setCorrelationId c).correlationId) := by
  intro hall
  have h := hall
    (ApiError.mk 404 Json.null "x" false [] none "t" none none) "a" "b"
  simp [ApiError.setCorrelationId] at h

/-- Claim C7 (amended): `correlationId` is absent (`none`) on every
envelope the constructor produces; assigning it sets the field and
changes no other field of the envelope (every other field is
`readonly`); the class does not, however, restrict the assignment to
happen only once — a later assignment overwrites the earlier value. -/
theorem correlationId_lifecycle (sc : Int) (msg : String)
    (errs : List ErrorDetail) (stk code : Option String) (t c : String)
    (e : ApiError)
    (hmk : ApiError.make sc msg errs stk code t = Except.ok e) :
    e.correlationId = none ∧
    (e.setCorrelationId c).correlationId = some c ∧
    (e.setCorrelationId c).statusCode = e.statusCode ∧
    (e.setCorrelationId c).data = e.data ∧
    (e.setCorrelationId c).message = e.message ∧
    (e.setCorrelationId c).success = e.success ∧
    (e.setCorrelationId c).errors = e.errors ∧
    (e.setCorrelationId c).code = e.code ∧
    (e.setCorrelationId c).timestamp = e.timestamp ∧
    (e.setCorrelationId c).stack = e.stack := by
  unfold ApiError.make at hmk
  by_cases hc : sc < 400 ∨ sc > 599
  · rw [if_pos hc] at hmk
    simp at hmk
  · rw [if_neg hc] at hmk
    simp only [Except.ok.injEq] at hmk
    subst hmk
    exact ⟨rfl, rfl, rfl, rfl, rfl, rfl, rfl, rfl, rfl, rfl⟩

/-- Witness for C7 (amended) at a concrete 404 envelope. -/
theorem correlationId_lifecycle_witness :
    (ApiError.mk 404 Json.null "m" false [] none "t0" none
      none).correlationId = none ∧
    ((ApiError.mk 404 Json.null "m" false [] none "t0" none
      none).setCorrelationId "c").correlationId = some "c" ∧
    ((ApiError.mk 404 Json.null "m" false [] none "t0" none
      none).setCorrelationId "c").statusCode = 404 ∧
    ((ApiError.mk 404 Json.null "m" false [] none "t0" none
      none).setCorrelationId "c").data = Json.null ∧
    ((ApiError.mk 404 Json.null "m" false [] none "t0" none
      none).setCorrelationId "c").message = "m" ∧
    ((ApiError.mk 404 Json.null "m" false [] none "t0" none
      none).setCorrelationId "c").success = false ∧
    ((ApiError.mk 404 Json.null "m" false [] none "t0" none
      none).setCorrelationId "c").errors = [] ∧
    ((ApiError.mk 404 Json.null "m" false [] none "t0" none
      none).setCorrelationId "c").code = none ∧
    ((ApiError.mk 404 Json.null "m" false [] none "t0" none
      none).setCorrelationId "c").timestamp = "t0" ∧
    ((ApiError.mk 404 Json.null "m" false [] none "t0" none
      none).setCorrelationId "c").stack = none :=
  correlationId_lifecycle 404 "m" [] none none "t0" "c" _ rfl

/-- Claim C8: serializing the same envelope twice yields identical
output — `toJSON` is a deterministic pure read of the envelope's
fields — and the `timestamp` it emits is exactly the field stored at
construction: the constructor captures the instant once, and
serialization re-reads that stored field rather than re-deriving it. -/
theorem toJSON_deterministic (e : ApiError) (r : ApiResponse)
    (msg : String) (errs : List ErrorDetail) (stk code : Option String)
    (d : Json) (md : Option ResponseMetadata) (t : String) :
    ApiError.toJSON e = ApiError.toJSON e ∧
    ApiResponse.toJSON r = ApiResponse.toJSON r ∧
    (ApiError.toJSON e).lookupKey "timestamp" =
      some (Json.str e.timestamp) ∧
    (ApiResponse.toJSON r).lookupKey "timestamp" =
      some (Json.str r.timestamp) ∧
    (ApiError.make 500 msg errs stk code t).map ApiError.timestamp =
      Except.ok t ∧
    (ApiResponse.make 200 d msg md t).map ApiResponse.timestamp =
      Except.ok t := by
  refine ⟨rfl, rfl, ?_, ?_, rfl, rfl⟩
  · rcases hc : e.code with _ | s
    · simp [ApiError.toJSON, Json.lookupKey, truthySpread, hc, findKey]
    · by_cases hs : s = "" <;>
        simp [ApiError.toJSON, Json.lookupKey, truthySpread, hc, hs,
          findKey]
  · rcases hm : r.metadata with _ | m <;>
      simp [ApiResponse.toJSON, Json.lookupKey, hm, findKey]

/-- Claim C9: `paginated([a,b,c], total 50, page 1, limit 10,
totalPages 5)` builds a 200 success envelope whose serialization
carries exactly the claimed keys and values: success true, statusCode
200, the default message "Data retrieved successfully", the list
payload, the four supplied metadata entries, and the captured
timestamp. -/
theorem paginated_scenario (a b c : Json) (t : String) :
    (ApiResponse.paginated [a, b, c]
        (ResponseMetadata.mk (some 50) (some 1) (some 10) (some 5)
          none none)
        "Data retrieved successfully" t).map ApiResponse.toJSON =
      Except.ok (Json.obj
        [("success", Json.bool true),
         ("statusCode", Json.num 200),
         ("message", Json.str "Data retrieved successfully"),
         ("data", Json.arr [a, b, c]),
         ("metadata", Json.obj
           [("total", Json.num 50), ("page", Json.num 1),
            ("limit", Json.num 10), ("totalPages", Json.num 5)]),
         ("timestamp", Json.str t)]) := rfl

/-- Claim C10: the error-envelope wire output contains the `code` key
iff `code` is a present non-empty string, and the `correlationId` key
iff `correlationId` is a present non-empty string; an envelope
constructed with `code` equal to the empty string serializes
identically to one constructed with no `code` at all. -/
theorem code_key_iff_truthy (e : ApiError) (msg t : String) :
    ("code" ∈ (ApiError.toJSON e).objKeys ↔
      ∃ s, e.code = some s ∧ s ≠ "") ∧
    ("correlationId" ∈ (ApiError.toJSON e).objKeys ↔
      ∃ s, e.correlationId = some s ∧ s ≠ "") ∧
    (ApiError.make 404 msg [] none (some "") t).map ApiError.toJSON =
      (ApiError.make 404 msg [] none none t).map ApiError.toJSON :=
  ⟨mem_objKeys_ApiError_code e, mem_objKeys_ApiError_correlationId e, rfl⟩
